import Mathlib

/-!
Verification of the EY 2022 frog-challenge notebooks.

The repository is a set of Jupyter notebooks.  The definitions below are a
shallow embedding of the notebook code that the claims under scrutiny talk
about: the slope-from-elevation convolution (DEM notebook), the GBIF
bounding-box filter and partition-extraction loop, the median-mosaic helper,
the predictor-image assembly, the nearest-pixel spatial join, the GeoTIFF
band writes, and the provenance of the raster asset URLs that the notebooks
open.  Grid values and coordinates are modelled as rationals; a missing
value (NaN) is modelled as Option.none; a raised Python exception is
modelled as Option.none at the call that raises it.
-/

namespace EYFrog

/-! ### Slope from elevation (DEM notebook, function slope_pct)

The DEM notebook computes slope percent from an elevation grid with two 3x3
kernels and scipy.ndimage.convolve.  The grid is modelled as a total
function on the integer plane (the claims say nothing about the boundary
mode), and convolve is true discrete convolution with the kernel centred at
the origin, which is the semantics of scipy.ndimage.convolve. -/

/-- Transcription of dx_kernel from slope_pct: rows (u = -1, 0, 1) are
(1, 0, -1), (2, 0, -2), (1, 0, -1); zero outside the 3x3 window. -/
def dx_kernel : ℤ → ℤ → ℚ := fun u v =>
  if v = -1 then (if u = 0 then 2 else if u = -1 ∨ u = 1 then 1 else 0)
  else if v = 1 then (if u = 0 then -2 else if u = -1 ∨ u = 1 then -1 else 0)
  else 0

/-- Transcription of dy_kernel from slope_pct: rows (u = -1, 0, 1) are
(1, 2, 1), (0, 0, 0), (-1, -2, -1); zero outside the 3x3 window. -/
def dy_kernel : ℤ → ℤ → ℚ := fun u v =>
  if u = -1 then (if v = 0 then 2 else if v = -1 ∨ v = 1 then 1 else 0)
  else if u = 1 then (if v = 0 then -2 else if v = -1 ∨ v = 1 then -1 else 0)
  else 0

/-- Discrete convolution of a grid with a 3x3 kernel centred at the origin:
out(i, j) is the sum over u, v in -1..1 of K(u, v) * dem(i - u, j - v).
This is the semantics of scipy.ndimage.convolve (which flips the kernel,
unlike correlate) away from array boundaries. -/
def convolve3 (dem : ℤ → ℤ → ℚ) (K : ℤ → ℤ → ℚ) (i j : ℤ) : ℚ :=
  K (-1) (-1) * dem (i + 1) (j + 1) + K (-1) 0 * dem (i + 1) j +
    K (-1) 1 * dem (i + 1) (j - 1) +
  K 0 (-1) * dem i (j + 1) + K 0 0 * dem i j + K 0 1 * dem i (j - 1) +
  K 1 (-1) * dem (i - 1) (j + 1) + K 1 0 * dem (i - 1) j +
    K 1 1 * dem (i - 1) (j - 1)

/-- Transcription of slope_pct from the DEM notebook:
dx = convolve(dem, dx_kernel) / (8 * resolution),
dy = convolve(dem, dy_kernel) / (8 * resolution),
result = sqrt(square(dx) + square(dy)) * 100. -/
noncomputable def slope_pct (dem : ℤ → ℤ → ℚ) (resolution : ℚ) (i j : ℤ) : ℝ :=
  let dx : ℚ := convolve3 dem dx_kernel i j / (8 * resolution)
  let dy : ℚ := convolve3 dem dy_kernel i j / (8 * resolution)
  Real.sqrt ((dx : ℝ) ^ 2 + (dy : ℝ) ^ 2) * 100

/-! ### GBIF bounding-box filter (Billy_frogs_planetary_computer notebook)

The frog-extraction notebook filters the occurrence dataframe to the
bounding box with four strict comparisons. -/

/-- One GBIF occurrence record, with the columns the notebook keeps. -/
structure GbifRecord where
  eventdate : String
  taxonOrder : String
  decimallatitude : ℚ
  decimallongitude : ℚ
  deriving DecidableEq, Repr

/-- Transcription of the bounding-box dataframe filter:
df[(df.decimallatitude < max_lat) and (df.decimallatitude > min_lat) and
(df.decimallongitude < max_lon) and (df.decimallongitude > min_lon)]. -/
def bbox_filter (min_lat max_lat min_lon max_lon : ℚ)
    (df : List GbifRecord) : List GbifRecord :=
  df.filter fun r =>
    decide (r.decimallatitude < max_lat) && decide (r.decimallatitude > min_lat) &&
    decide (r.decimallongitude < max_lon) && decide (r.decimallongitude > min_lon)

/-! ### Nearest-pixel spatial join (Billy_Model-Copy2 notebook, join_features)

The model notebook loops once over the frog occurrence points; for each
point it selects the predictor-image pixel at the nearest grid coordinates
with the sel method of xarray (method nearest, applied per axis) and
appends one row of band values plus the join key. -/

/-- Predictor raster: its grid coordinates, band names, and band values at
each pair of grid coordinates. -/
structure PredictorImage where
  xs : List ℚ
  ys : List ℚ
  bandNames : List String
  pix : ℚ → ℚ → List ℚ

/-- Semantics of selecting along one coordinate axis with method nearest:
the grid coordinate minimising the absolute distance to the target. -/
def nearest_coord (coords : List ℚ) (t : ℚ) : ℚ :=
  (coords.argmin (fun c => |c - t|)).getD t

/-- Semantics of predictor_image.sel(x=lon, y=lat, method="nearest"): the
band values at the nearest x grid coordinate and nearest y grid
coordinate. -/
def sel_nearest (img : PredictorImage) (lon lat : ℚ) : List ℚ :=
  img.pix (nearest_coord img.xs lon) (nearest_coord img.ys lat)

/-- One occurrence point of the model dataframe: the columns the join loop
reads (decimalLongitude, decimalLatitude, key). -/
structure ModelPoint where
  decimalLongitude : ℚ
  decimalLatitude : ℚ
  key : ℕ
  deriving Inhabited, DecidableEq

/-- Transcription of the join_features loop: data_per_point starts empty
and the single for loop over the zipped point columns appends, for each
point in order, one row holding the nearest-pixel band values and the join
key. -/
def join_features (model_data : List ModelPoint) (predictor_image : PredictorImage) :
    List (List ℚ × ℕ) :=
  model_data.foldl
    (fun data_per_point p =>
      data_per_point ++
        [(sel_nearest predictor_image p.decimalLongitude p.decimalLatitude, p.key)])
    []

/-! ### Median mosaic (get_pc, Billy_Model-Copy2 and Brian_Weather)

get_pc, for a product other than terraclimate, stacks the signed scenes
returned by the catalog search, optionally masks a no-data value to NaN,
and takes the median over the time dimension with skipna=True.  A scene is
a partial map from pixels to values; none is NaN. -/

/-- One scene of the stacked raster data: per pixel an optional value,
none being NaN (no data). -/
abbrev Scene (P : Type) := P → Option ℚ

/-- Insertion into an ascending list, used to model the sort inside the
median. -/
def insert_sorted (x : ℚ) : List ℚ → List ℚ
  | [] => [x]
  | y :: ys => if x ≤ y then x :: y :: ys else y :: insert_sorted x ys

/-- Ascending insertion sort. -/
def sort_asc (l : List ℚ) : List ℚ := l.foldr insert_sorted []

/-- Median of a list as numpy computes it on a nonempty array: middle
element of the ascending sort for odd length, mean of the two middle
elements for even length. -/
def np_median (l : List ℚ) : ℚ :=
  let s := sort_asc l
  if l.length % 2 = 1 then s.getD (l.length / 2) 0
  else (s.getD (l.length / 2 - 1) 0 + s.getD (l.length / 2) 0) / 2

/-- Transcription of data.where(lambda x: x != na_val, other=np.nan),
applied only when na_val is given: every stacked value equal to na_val
becomes NaN, and NaN stays NaN. -/
def where_ne_na {P : Type} (na_val : Option ℚ) (scenes : List (Scene P)) :
    List (Scene P) :=
  match na_val with
  | none => scenes
  | some v =>
      scenes.map (fun s p => (s p).bind (fun x => if x = v then none else some x))

/-- Transcription of data.median(dim="time", skipna=True): per pixel the
NaN entries of the time stack are dropped and the median of the remaining
values is taken; a pixel with no remaining value stays NaN. -/
def median_skipna {P : Type} (scenes : List (Scene P)) : Scene P := fun p =>
  let vals := scenes.filterMap (fun s => s p)
  if vals.isEmpty then none else some (np_median vals)

/-- Transcription of the non-terraclimate branch of get_pc: stack the
scenes, mask the no-data value when one is given, then take the median
composite over time with skipna=True. -/
def get_pc {P : Type} (scenes : List (Scene P)) (na_val : Option ℚ) : Scene P :=
  median_skipna (where_ne_na na_val scenes)

/-- Claim-side view used by C5: the stacked values of the scenes at one
pixel, in stack order. -/
def values_at {P : Type} (scenes : List (Scene P)) (p : P) : List (Option ℚ) :=
  scenes.map (fun s => s p)

/-- Claim-side view used by C5: mask a no-data value inside a pixel's time
series. -/
def mask_vals (na_val : Option ℚ) (l : List (Option ℚ)) : List (Option ℚ) :=
  match na_val with
  | none => l
  | some v => l.map (fun o => o.bind (fun x => if x = v then none else some x))

/-- Claim-side view used by C5: drop the NaN entries of a pixel's time
series. -/
def drop_na (l : List (Option ℚ)) : List ℚ := l.filterMap id

/-- Claim-side view used by C5: the median of a time series with NaN
skipped, NaN when nothing remains. -/
def nan_median (l : List (Option ℚ)) : Option ℚ :=
  if drop_na l = [] then none else some (np_median (drop_na l))

/-- Sample occurrence points used by the C1 witness. -/
def sample_points : List ModelPoint := [⟨150.7, -33.5, 1⟩, ⟨150.8, -33.6, 2⟩]

/-- Sample 2x2 predictor raster used by the C1 witness. -/
def sample_image : PredictorImage :=
  ⟨[150.65, 150.75], [-33.55, -33.45], ["elevation"], fun x y => [x + y]⟩

/-! ### GBIF partition extraction with retry (Billy_frogs_planetary_computer)

The extraction loop walks over the partition indices of the dask dataframe,
takes a partition with probability 0.1, and computes it inside a bare
try/except: on any exception it calls resign_planetary_computer (which
rebuilds the dataframe from a freshly signed snapshot) and recomputes the
same partition, with no further handling.  The dataframe handle is modelled
by its generation: the number of re-signings performed so far.  compute g i
is the result of computing partition i of the generation-g dataframe; none
models a raised exception. -/

/-- Transcription of the try/except body of the extraction loop: try
computing partition i of the current dataframe; on any exception, re-sign
once and recompute the same partition; a failure of the retry propagates
uncaught (none).  The accumulated records are only ever appended to. -/
def process_partition {α : Type} (compute : ℕ → ℕ → Option (List α))
    (st : List α × ℕ) (i : ℕ) : Option (List α × ℕ) :=
  match compute st.2 i with
  | some rs => some (st.1 ++ rs, st.2)
  | none =>
      match compute (st.2 + 1) i with
      | some rs => some (st.1 ++ rs, st.2 + 1)
      | none => none

/-- Transcription of the extraction loop: iterate over partition indices
0 to npartitions - 1, processing a partition only when the random draw
selects it; the state is the accumulated frog records together with the
current dataframe generation, and an uncaught exception aborts the loop. -/
def extract_frogs {α : Type} (compute : ℕ → ℕ → Option (List α))
    (selected : ℕ → Bool) (npartitions : ℕ) : Option (List α × ℕ) :=
  (List.range npartitions).foldl
    (fun acc i => acc.bind (fun st =>
      if selected i then process_partition compute st i else some st))
    (some ([], 0))

/-! ### Provenance of the species-occurrence records (C3)

Two notebooks obtain occurrence records.  Brian_Weather's get_frogs calls
the GBIF REST occurrence-search service with requests.get, paging with a
limit of 300 and an offset advanced by the limit until endOfRecords.  The
Billy_frogs notebook instead reads the GBIF parquet snapshot from the
Planetary Computer with dask and computes it one partition at a time, with
no offset or limit parameter. -/

/-- How a notebook obtains its species-occurrence records, transcribed
from the two extraction code paths. -/
inductive OccurrenceAccess where
  | restPagedSearch (endpoint : String) (limit : ℕ)
  | parquetPartitions (collection : String)
  deriving DecidableEq

/-- Whether an occurrence access is a paged REST occurrence-search call. -/
def isRestPaged : OccurrenceAccess → Bool
  | .restPagedSearch _ _ => true
  | .parquetPartitions _ => false

/-- Transcription of where each notebook obtains its occurrence records:
Brian_Weather via the REST search endpoint with limit 300 and offset
paging, Billy_frogs_planetary_computer via the partitioned GBIF parquet
snapshot. -/
def occurrence_accesses : List OccurrenceAccess :=
  [.restPagedSearch "https://api.gbif.org/v1/occurrence/search" 300,
   .parquetPartitions "gbif"]

/-! ### Predictor-image assembly (Billy_Model-Copy2, create_predictor_image) -/

/-- One fetched predictor dataset: its band coordinate, one layer of pixel
values per band (layers abstract in L), and its x and y coordinates. -/
structure Dataset (L : Type) where
  band : List String
  layers : List L
  xs : List ℚ
  ys : List ℚ
  deriving DecidableEq

/-- Transcription of create_predictor_image: the loop initialises the
combined values, band coordinate, x and y coordinates and dims from the
first dataset (i == 0) and concatenates the values and band coordinates of
every later dataset along the band axis; the output keeps the first
dataset's x and y coordinates.  For the empty list the combined variables
are never assigned and building the output raises NameError, modelled as
none. -/
def create_predictor_image {L : Type} : List (Dataset L) → Option (Dataset L)
  | [] => none
  | d :: ds =>
      some { band := ds.foldl (fun acc x => acc ++ x.band) d.band,
             layers := ds.foldl (fun acc x => acc ++ x.layers) d.layers,
             xs := d.xs,
             ys := d.ys }

/-! ### GeoTIFF band writes (DEM notebook and JRC_Surface_Water)

The DEM notebook opens a two-band GeoTIFF and writes elevation to band 1
and slope to band 2.  The surface-water notebook opens a GeoTIFF with
count = len(cog_assets), calls dst.write(data), and then writes
data.sel(band=cog_assets[i]) to band i+1 for each listed asset in list
order.  A file is modelled by the layer last written to each one-based
band index. -/

/-- Semantics of dst.write(layer, b) and dst.write_band(b, layer): the
layer written to band b, other bands unchanged. -/
def write_band {L : Type} (file : ℕ → Option L) (b : ℕ) (layer : L) :
    ℕ → Option L :=
  fun k => if k = b then some layer else file k

/-- A GeoTIFF just opened for writing, with nothing written yet. -/
def empty_tiff {L : Type} : ℕ → Option L := fun _ => none

/-- Transcription of the DEM notebook output cell:
dst.write(Clipped_Data.elevation, 1) then dst.write(Clipped_Data.slope, 2)
into the file opened with count=2. -/
def dem_tiff {L : Type} (elevation slope : L) : ℕ → Option L :=
  write_band (write_band empty_tiff 1 elevation) 2 slope

/-- Semantics of the bulk dst.write(data) call of the surface-water
notebook: the stacked data's bands fill bands 1 to count. -/
def write_all {L : Type} (file : ℕ → Option L) (dataBands : List L) :
    ℕ → Option L :=
  fun k => if 1 ≤ k ∧ k ≤ dataBands.length then dataBands.get? (k - 1) else file k

/-- Transcription of the surface-water notebook output cell: after
dst.write(data), the loop for i, band in enumerate(cog_assets) writes
data.sel(band=band) to band i+1; sel gives the data layer of the named
asset. -/
def jrc_tiff {L : Type} (cog_assets : List String) (sel : String → L)
    (dataBands : List L) : ℕ → Option L :=
  cog_assets.enum.foldl (fun f p => write_band f (p.1 + 1) (sel p.2))
    (write_all empty_tiff dataBands)

/-! ### Raster asset URL provenance and signing

Each raster dataset access across the notebooks either signs a STAC search
result before opening it or opens it raw.  The DEM notebook signs
items[0].assets["data"]; get_pc signs every item before stacking, yet its
terraclimate branch reads the Zarr URL from the collection metadata with
fsspec without signing; the Sentinel-2 and io-lulc accesses sign; the
surface-water (jrc-gsw) notebook opens item.assets[key].href for its
colormaps and stacks the search item without any signing. -/

/-- A raster asset URL together with whether planetary_computer.sign was
applied to it before the access. -/
structure AssetUrl where
  href : String
  signed : Bool
  deriving DecidableEq, Repr

/-- Semantics of planetary_computer.sign applied to an asset URL. -/
def sign_asset (u : AssetUrl) : AssetUrl := { u with signed := true }

/-- The raw asset URLs the STAC catalog hands the notebooks: one
representative asset per search, the per-key assets of the jrc-gsw item,
and the terraclimate Zarr URL taken from collection metadata rather than
from a search. -/
structure CatalogAssets where
  demData : AssetUrl
  getPcData : AssetUrl
  terraclimZarr : AssetUrl
  jrcAssets : String → AssetUrl
  jrcCogs : List String
  iolulcData : AssetUrl
  sentinelData : AssetUrl

/-- Transcription of every raster-asset access the notebooks perform, in
notebook order: the DEM notebook opens the signed data asset; get_pc
stacks signed items but reads the terraclimate Zarr raw; the surface-water
notebook opens each jrc-gsw cog asset raw for its colormaps and stacks the
raw item (accessing the same asset URLs); the io-lulc section signs both
its stacked items and its colormap read; Sentinel-2 stacks signed items. -/
def opened_raster_urls (c : CatalogAssets) : List AssetUrl :=
  [sign_asset c.demData] ++
  [sign_asset c.getPcData] ++
  [c.terraclimZarr] ++
  (c.jrcCogs.map fun k => c.jrcAssets k) ++
  (c.jrcCogs.map fun k => c.jrcAssets k) ++
  [sign_asset c.iolulcData] ++
  [sign_asset c.sentinelData]

/-- A concrete catalog state in which every raw URL is unsigned, as the
catalog actually returns them. -/
def raw_catalog : CatalogAssets :=
  ⟨⟨"dem-data", false⟩, ⟨"s2-scene", false⟩, ⟨"terraclim-zarr", false⟩,
    fun k => ⟨k, false⟩, ["occurrence", "extent"], ⟨"io-lulc-data", false⟩,
    ⟨"s2-l2a-data", false⟩⟩

end EYFrog

namespace EYFrog

/-! ## Theorems -/

/-- Helper: folding append of one row per element is a map. -/
theorem foldl_append_singleton_eq_map {α β : Type} (f : α → β) (l : List α) :
    ∀ acc : List β, l.foldl (fun a x => a ++ [f x]) acc = acc ++ l.map f := by
  induction l with
  | nil => intro acc; simp
  | cons x xs ih => intro acc; simp [ih]

/-- Helper: the nearest grid coordinate is a grid coordinate and minimises
the distance to the target, for a nonempty coordinate list. -/
theorem nearest_coord_spec (coords : List ℚ) (t : ℚ) (h : coords ≠ []) :
    nearest_coord coords t ∈ coords ∧
      ∀ c ∈ coords, |nearest_coord coords t - t| ≤ |c - t| := by
  unfold nearest_coord
  cases hm : coords.argmin (fun c => |c - t|) with
  | none => exact absurd (List.argmin_eq_none.mp hm) h
  | some m =>
    have hmem : m ∈ coords.argmin (fun c => |c - t|) := by
      rw [hm]; rfl
    simp only [Option.getD_some]
    exact ⟨List.argmin_mem hmem,
      fun c hc => List.le_of_mem_argmin (f := fun c => |c - t|) hc hmem⟩

/-- Helper: join_features is the map of the nearest-pixel row over the
point list. -/
theorem join_features_eq_map (pts : List ModelPoint) (img : PredictorImage) :
    join_features pts img =
      pts.map (fun p =>
        (sel_nearest img p.decimalLongitude p.decimalLatitude, p.key)) := by
  unfold join_features
  simpa using foldl_append_singleton_eq_map
    (fun p => (sel_nearest img p.decimalLongitude p.decimalLatitude, p.key)) pts []

/-- C1: the spatial join visits each occurrence point exactly once in a
single pass (the output has one row per point, in point order), and row j
holds exactly the predictor raster's pixel values at grid coordinates
nearest to point j, together with its key. -/
theorem join_features_nearest_single_pass (pts : List ModelPoint)
    (img : PredictorImage) (hx : img.xs ≠ []) (hy : img.ys ≠ []) :
    (join_features pts img).length = pts.length ∧
    ∀ j : ℕ, j < pts.length →
      ∃ cx cy : ℚ,
        cx ∈ img.xs ∧
        (∀ c ∈ img.xs, |cx - (pts.getD j default).decimalLongitude| ≤
          |c - (pts.getD j default).decimalLongitude|) ∧
        cy ∈ img.ys ∧
        (∀ c ∈ img.ys, |cy - (pts.getD j default).decimalLatitude| ≤
          |c - (pts.getD j default).decimalLatitude|) ∧
        (join_features pts img).getD j ([], 0) =
          (img.pix cx cy, (pts.getD j default).key) := by
  constructor
  · rw [join_features_eq_map]; simp
  · intro j hj
    obtain ⟨hxm, hxmin⟩ :=
      nearest_coord_spec img.xs (pts.getD j default).decimalLongitude hx
    obtain ⟨hym, hymin⟩ :=
      nearest_coord_spec img.ys (pts.getD j default).decimalLatitude hy
    refine ⟨nearest_coord img.xs (pts.getD j default).decimalLongitude,
      nearest_coord img.ys (pts.getD j default).decimalLatitude,
      hxm, hxmin, hym, hymin, ?_⟩
    rw [join_features_eq_map]
    simp [List.getD, List.getElem?_map, List.getElem?_eq_getElem hj, sel_nearest]

/-- Witness for C1 on a concrete 2x2 raster and two occurrence points. -/
theorem join_features_nearest_single_pass_witness :
    (sample_image.xs ≠ [] ∧ sample_image.ys ≠ []) ∧
    ((join_features sample_points sample_image).length = sample_points.length ∧
     ∀ j : ℕ, j < sample_points.length →
       ∃ cx cy : ℚ,
         cx ∈ sample_image.xs ∧
         (∀ c ∈ sample_image.xs,
           |cx - (sample_points.getD j default).decimalLongitude| ≤
             |c - (sample_points.getD j default).decimalLongitude|) ∧
         cy ∈ sample_image.ys ∧
         (∀ c ∈ sample_image.ys,
           |cy - (sample_points.getD j default).decimalLatitude| ≤
             |c - (sample_points.getD j default).decimalLatitude|) ∧
         (join_features sample_points sample_image).getD j ([], 0) =
           (sample_image.pix cx cy, (sample_points.getD j default).key)) :=
  ⟨⟨by simp [sample_image], by simp [sample_image]⟩,
    join_features_nearest_single_pass sample_points sample_image
      (by simp [sample_image]) (by simp [sample_image])⟩

/-- Helper: masking the no-data value commutes with gathering a pixel's
time series. -/
theorem values_at_where_ne_na {P : Type} (na_val : Option ℚ)
    (scenes : List (Scene P)) (p : P) :
    values_at (where_ne_na na_val scenes) p = mask_vals na_val (values_at scenes p) := by
  cases na_val with
  | none => rfl
  | some v =>
    induction scenes with
    | nil => rfl
    | cons s ss ih =>
      simpa [values_at, where_ne_na, mask_vals] using ih

/-- Helper: per-pixel filterMap over scenes gathers then drops NaN. -/
theorem filterMap_eq_drop_na_values_at {P : Type} (scenes : List (Scene P)) (p : P) :
    scenes.filterMap (fun s => s p) = drop_na (values_at scenes p) := by
  unfold drop_na values_at
  rw [List.filterMap_map]
  rfl

/-- C5: every output pixel of get_pc for a non-terraclimate product equals
the median over the time dimension of the stacked scenes' values at that
pixel (after no-data masking), with NaN values skipped; in particular, when
some non-NaN value remains the output is the median of the remaining
values, and an all-NaN pixel stays NaN. -/
theorem get_pc_median_skipna {P : Type} (scenes : List (Scene P))
    (na_val : Option ℚ) (p : P)
    (hne : drop_na (mask_vals na_val (values_at scenes p)) ≠ []) :
    get_pc scenes na_val p = nan_median (mask_vals na_val (values_at scenes p)) ∧
    get_pc scenes na_val p =
      some (np_median (drop_na (mask_vals na_val (values_at scenes p)))) := by
  have key : (where_ne_na na_val scenes).filterMap (fun s => s p) =
      drop_na (mask_vals na_val (values_at scenes p)) := by
    rw [filterMap_eq_drop_na_values_at, values_at_where_ne_na]
  constructor
  · unfold get_pc median_skipna nan_median
    simp only [key]
    rcases h : drop_na (mask_vals na_val (values_at scenes p)) with _ | _ <;> simp [h]
  · unfold get_pc median_skipna
    simp [key, hne]

/-- Witness for C5: three one-pixel scenes with one NaN and a masked
no-data value; the median of the surviving values 5 and 1 is 3. -/
theorem get_pc_median_skipna_witness :
    drop_na (mask_vals (some 0)
      (values_at [fun _ => some 5, fun _ => none, fun _ => some 0,
        fun _ => some 1] ())) ≠ [] ∧
    (get_pc [fun _ => some 5, fun _ => none, fun _ => some 0, fun _ => some 1]
        (some 0) () =
      nan_median (mask_vals (some 0)
        (values_at [fun _ => some 5, fun _ => none, fun _ => some 0,
          fun _ => some 1] ())) ∧
     get_pc [fun _ => some 5, fun _ => none, fun _ => some 0, fun _ => some 1]
        (some 0) () =
      some (np_median (drop_na (mask_vals (some 0)
        (values_at [fun _ => some 5, fun _ => none, fun _ => some 0,
          fun _ => some 1] ()))))) :=
  ⟨by decide, get_pc_median_skipna _ (some 0) () (by decide)⟩

/-- C2: for every elevation grid dem and nonzero resolution, slope_pct
equals sqrt(dx^2 + dy^2) * 100 with dx the convolution of dem with the
Sobel x-kernel (1,0,-1),(2,0,-2),(1,0,-1) divided by 8 * resolution, and dy
the convolution with the Sobel y-kernel (1,2,1),(0,0,0),(-1,-2,-1) divided
by 8 * resolution.  The kernel entries are pinned explicitly. -/
theorem slope_pct_is_sobel_formula (dem : ℤ → ℤ → ℚ) (resolution : ℚ)
    (h : resolution ≠ 0) (i j : ℤ) :
    slope_pct dem resolution i j =
      Real.sqrt (((convolve3 dem dx_kernel i j / (8 * resolution) : ℚ) : ℝ) ^ 2 +
        ((convolve3 dem dy_kernel i j / (8 * resolution) : ℚ) : ℝ) ^ 2) * 100 ∧
    ((dx_kernel (-1) (-1), dx_kernel (-1) 0, dx_kernel (-1) 1) = (1, 0, -1) ∧
     (dx_kernel 0 (-1), dx_kernel 0 0, dx_kernel 0 1) = (2, 0, -2) ∧
     (dx_kernel 1 (-1), dx_kernel 1 0, dx_kernel 1 1) = (1, 0, -1)) ∧
    ((dy_kernel (-1) (-1), dy_kernel (-1) 0, dy_kernel (-1) 1) = (1, 2, 1) ∧
     (dy_kernel 0 (-1), dy_kernel 0 0, dy_kernel 0 1) = (0, 0, 0) ∧
     (dy_kernel 1 (-1), dy_kernel 1 0, dy_kernel 1 1) = (-1, -2, -1)) := by
  refine ⟨rfl, ⟨?_, ?_, ?_⟩, ⟨?_, ?_, ?_⟩⟩ <;> decide

/-- Witness for C2 at the constant-zero grid with resolution 30. -/
theorem slope_pct_is_sobel_formula_witness :
    (30 : ℚ) ≠ 0 ∧
    (slope_pct (fun _ _ => 0) 30 0 0 =
      Real.sqrt (((convolve3 (fun _ _ => 0) dx_kernel 0 0 / (8 * 30) : ℚ) : ℝ) ^ 2 +
        ((convolve3 (fun _ _ => 0) dy_kernel 0 0 / (8 * 30) : ℚ) : ℝ) ^ 2) * 100 ∧
     ((dx_kernel (-1) (-1), dx_kernel (-1) 0, dx_kernel (-1) 1) = (1, 0, -1) ∧
      (dx_kernel 0 (-1), dx_kernel 0 0, dx_kernel 0 1) = (2, 0, -2) ∧
      (dx_kernel 1 (-1), dx_kernel 1 0, dx_kernel 1 1) = (1, 0, -1)) ∧
     ((dy_kernel (-1) (-1), dy_kernel (-1) 0, dy_kernel (-1) 1) = (1, 2, 1) ∧
      (dy_kernel 0 (-1), dy_kernel 0 0, dy_kernel 0 1) = (0, 0, 0) ∧
      (dy_kernel 1 (-1), dy_kernel 1 0, dy_kernel 1 1) = (-1, -2, -1))) :=
  ⟨by norm_num, slope_pct_is_sobel_formula (fun _ _ => 0) 30 (by norm_num) 0 0⟩

/-- C10: slope_pct is a total function of the grid and the resolution in
this embedding, and whenever the resolution is nonzero every output value
is nonnegative, being a square root of a sum of squares scaled by 100. -/
theorem slope_pct_nonneg (dem : ℤ → ℤ → ℚ) (resolution : ℚ)
    (h : resolution ≠ 0) (i j : ℤ) :
    0 ≤ slope_pct dem resolution i j :=
  mul_nonneg (Real.sqrt_nonneg _) (by norm_num)

/-- Witness for C10 at a concrete one-bump grid with resolution 30. -/
theorem slope_pct_nonneg_witness :
    (30 : ℚ) ≠ 0 ∧
    0 ≤ slope_pct (fun i j => if i = 0 ∧ j = 0 then 5 else 0) 30 1 1 :=
  ⟨by norm_num, slope_pct_nonneg _ 30 (by norm_num) 1 1⟩

/-- C9: the bounding-box filter keeps exactly the records with
min_lat < decimallatitude < max_lat and min_lon < decimallongitude <
max_lon; all four comparisons being strict, a record lying exactly on a
bounding-box edge is excluded. -/
theorem bbox_filter_strict (min_lat max_lat min_lon max_lon : ℚ)
    (df : List GbifRecord) (r : GbifRecord) :
    (r ∈ bbox_filter min_lat max_lat min_lon max_lon df ↔
      r ∈ df ∧ (min_lat < r.decimallatitude ∧ r.decimallatitude < max_lat ∧
        min_lon < r.decimallongitude ∧ r.decimallongitude < max_lon)) ∧
    (r.decimallatitude = max_lat →
      r ∉ bbox_filter min_lat max_lat min_lon max_lon df) := by
  constructor
  · simp only [bbox_filter, List.mem_filter, Bool.and_eq_true, decide_eq_true_eq, gt_iff_lt]
    tauto
  · intro hedge hmem
    simp only [bbox_filter, List.mem_filter, Bool.and_eq_true, decide_eq_true_eq] at hmem
    exact absurd (hedge ▸ hmem.2.1.1.1) (lt_irrefl _)

/-- Witness for C9 on a concrete two-record dataframe around the Richmond
bounding box, with one record strictly inside and one on the edge. -/
theorem bbox_filter_strict_witness :
    (⟨"2021-01-01", "Anura", -33.5, 150.7⟩ ∈
        bbox_filter (-33.69) (-33.48) 150.62 150.83
          [⟨"2021-01-01", "Anura", -33.5, 150.7⟩,
           ⟨"2021-01-02", "Anura", -33.48, 150.7⟩] ↔
      ⟨"2021-01-01", "Anura", -33.5, 150.7⟩ ∈
          [⟨"2021-01-01", "Anura", -33.5, 150.7⟩,
           (⟨"2021-01-02", "Anura", -33.48, 150.7⟩ : GbifRecord)] ∧
        ((-33.69 : ℚ) < -33.5 ∧ (-33.5 : ℚ) < -33.48 ∧
          (150.62 : ℚ) < 150.7 ∧ (150.7 : ℚ) < 150.83)) ∧
    ((-33.5 : ℚ) = -33.48 →
      ⟨"2021-01-01", "Anura", -33.5, 150.7⟩ ∉
        bbox_filter (-33.69) (-33.48) 150.62 150.83
          [⟨"2021-01-01", "Anura", -33.5, 150.7⟩,
           ⟨"2021-01-02", "Anura", -33.48, 150.7⟩]) :=
  bbox_filter_strict (-33.69) (-33.48) 150.62 150.83 _ _

/-- C4: the try/except body of the extraction loop retries a failing
partition exactly once after re-signing the dataset: a first successful
compute appends its records without re-signing; a failing compute is
followed by one re-signed recompute of the same partition index; a second
failure propagates with no further handling.  In every non-failing case
the records accumulated from earlier partitions stay an unchanged prefix. -/
theorem process_partition_retry_once {α : Type}
    (compute : ℕ → ℕ → Option (List α)) (frogs : List α) (gen i : ℕ)
    (rs rs' : List α) :
    (compute gen i = some rs →
      process_partition compute (frogs, gen) i = some (frogs ++ rs, gen)) ∧
    (compute gen i = none → compute (gen + 1) i = some rs' →
      process_partition compute (frogs, gen) i = some (frogs ++ rs', gen + 1)) ∧
    (compute gen i = none → compute (gen + 1) i = none →
      process_partition compute (frogs, gen) i = none) := by
  refine ⟨?_, ?_, ?_⟩
  · intro h1; simp [process_partition, h1]
  · intro h1 h2; simp [process_partition, h1, h2]
  · intro h1 h2; simp [process_partition, h1, h2]

/-- Witness for C4 with a compute that fails at generation 0 and succeeds
after one re-signing. -/
theorem process_partition_retry_once_witness :
    ((fun g i => if g = 0 then (none : Option (List ℕ)) else some [i]) 0 3 = some [9] →
      process_partition (fun g i => if g = 0 then none else some [i]) ([7], 0) 3 =
        some ([7] ++ [9], 0)) ∧
    ((fun g i => if g = 0 then (none : Option (List ℕ)) else some [i]) 0 3 = none →
      (fun g i => if g = 0 then (none : Option (List ℕ)) else some [i]) 1 3 = some [3] →
      process_partition (fun g i => if g = 0 then none else some [i]) ([7], 0) 3 =
        some ([7] ++ [3], 1)) ∧
    ((fun g i => if g = 0 then (none : Option (List ℕ)) else some [i]) 0 3 = none →
      (fun g i => if g = 0 then (none : Option (List ℕ)) else some [i]) 1 3 = none →
      process_partition (fun g i => if g = 0 then none else some [i]) ([7], 0) 3 = none) :=
  process_partition_retry_once (fun g i => if g = 0 then none else some [i]) [7] 0 3 [9] [3]

/-- Helper: the extraction loop with an always-succeeding compute
concatenates the selected partitions onto the accumulator. -/
theorem foldl_extract_success {α : Type} (parts : ℕ → List α)
    (selected : ℕ → Bool) :
    ∀ (l : List ℕ) (acc : List α) (g : ℕ),
      l.foldl
        (fun a i => a.bind (fun st =>
          if selected i then
            process_partition (fun _ j => some (parts j)) st i
          else some st))
        (some (acc, g)) =
      some (acc ++ ((l.filter selected).map parts).flatten, g) := by
  intro l
  induction l with
  | nil => intro acc g; simp
  | cons i is ih =>
    intro acc g
    rw [List.foldl_cons]
    by_cases hi : selected i = true
    · have hpp : (some (acc, g)).bind (fun st =>
          if selected i = true then
            process_partition (fun _ j => some (parts j)) st i
          else some st) = some (acc ++ parts i, g) := by
        simp [hi, process_partition]
      rw [hpp, ih]
      simp [hi, List.filter_cons, List.append_assoc]
    · have hpp : (some (acc, g)).bind (fun st =>
          if selected i = true then
            process_partition (fun _ j => some (parts j)) st i
          else some st) = some (acc, g) := by
        simp [hi]
      rw [hpp, ih]
      simp [List.filter_cons, hi]

/-- Counterexample for C3 as stated: not every occurrence-record access of
the notebooks is a paged REST occurrence-search call; the Billy_frogs
extraction reads the partitioned GBIF parquet snapshot. -/
theorem not_all_occurrence_accesses_rest_paged :
    occurrence_accesses.all isRestPaged = false := by decide

/-- C3 (amended): every occurrence-record access is either the paged
offset/limit REST occurrence search or the partitioned GBIF parquet
snapshot, and the records consumed by the frogs extraction loop are the
concatenation of the computed selected partitions (selected by partition
index, not by offset and limit). -/
theorem occurrence_accesses_rest_or_parquet {α : Type} (parts : ℕ → List α)
    (selected : ℕ → Bool) (n : ℕ) (a : OccurrenceAccess)
    (ha : a ∈ occurrence_accesses) :
    (isRestPaged a = true ∨ a = .parquetPartitions "gbif") ∧
    extract_frogs (fun _ j => some (parts j)) selected n =
      some ((((List.range n).filter selected).map parts).flatten, 0) := by
  constructor
  · simp only [occurrence_accesses, List.mem_cons, List.mem_singleton] at ha
    rcases ha with h | h | h
    · exact Or.inl (by rw [h]; rfl)
    · exact Or.inr h
    · cases h
  · unfold extract_frogs
    simpa using foldl_extract_success parts selected (List.range n) [] 0

/-- Witness for C3 (amended): the parquet access is in the access list, and
a concrete three-partition extraction with partitions 0 and 2 selected
returns the concatenation of those partitions. -/
theorem occurrence_accesses_rest_or_parquet_witness :
    (OccurrenceAccess.parquetPartitions "gbif" ∈ occurrence_accesses) ∧
    ((isRestPaged (.parquetPartitions "gbif") = true ∨
        (OccurrenceAccess.parquetPartitions "gbif" : OccurrenceAccess) =
          .parquetPartitions "gbif") ∧
      extract_frogs (fun _ j => some [j, j + 10]) (fun i => decide (i ≠ 1)) 3 =
        some (((((List.range 3).filter (fun i => decide (i ≠ 1))).map
          (fun j => [j, j + 10]))).flatten, 0)) :=
  ⟨by decide,
    occurrence_accesses_rest_or_parquet (fun j => [j, j + 10])
      (fun i => decide (i ≠ 1)) 3 (.parquetPartitions "gbif") (by decide)⟩

/-- Helper: folding concatenation over a list extends the accumulator by
the join of the mapped lists. -/
theorem foldl_append_eq_join {α β : Type} (f : α → List β) (l : List α) :
    ∀ acc : List β, l.foldl (fun a x => a ++ f x) acc = acc ++ (l.map f).flatten := by
  induction l with
  | nil => intro acc; simp
  | cons x xs ih => intro acc; simp [ih]

/-- C8: for a nonempty dataset list sharing spatial coordinates,
create_predictor_image returns an image whose band coordinate is the
concatenation of the inputs' band coordinates in list order, whose band
count is the sum of the inputs' band counts, and whose x and y coordinates
are those of the first dataset; for the empty list the combined variables
are never assigned, modelled as a none result. -/
theorem create_predictor_image_spec {L : Type} (d : Dataset L)
    (ds : List (Dataset L))
    (hsame : ∀ e ∈ d :: ds, e.xs = d.xs ∧ e.ys = d.ys) :
    (∃ img : Dataset L,
      create_predictor_image (d :: ds) = some img ∧
      img.band = ((d :: ds).map Dataset.band).flatten ∧
      img.band.length = (((d :: ds).map (fun e => e.band.length)).sum) ∧
      img.xs = d.xs ∧ img.ys = d.ys) ∧
    create_predictor_image ([] : List (Dataset L)) = none := by
  refine ⟨⟨_, rfl, ?_, ?_, rfl, rfl⟩, rfl⟩
  · simpa using foldl_append_eq_join Dataset.band ds d.band
  · simp only [show (create_predictor_image (d :: ds) : Option (Dataset L)) =
      some ⟨ds.foldl (fun acc x => acc ++ x.band) d.band,
        ds.foldl (fun acc x => acc ++ x.layers) d.layers, d.xs, d.ys⟩ from rfl]
    simp only [foldl_append_eq_join Dataset.band ds d.band]
    simp only [List.length_flatten, List.map_map, List.map_cons, List.length_append,
      List.sum_cons]
    rfl

/-- Witness for C8 with two concrete datasets over layer type ℕ. -/
theorem create_predictor_image_spec_witness :
    (∀ e ∈ [(⟨["red", "green"], [10, 20], [1, 2], [3, 4]⟩ : Dataset ℕ),
        ⟨["elevation"], [30], [1, 2], [3, 4]⟩],
      e.xs = [1, 2] ∧ e.ys = [3, 4]) ∧
    ((∃ img : Dataset ℕ,
      create_predictor_image
          [⟨["red", "green"], [10, 20], [1, 2], [3, 4]⟩,
           ⟨["elevation"], [30], [1, 2], [3, 4]⟩] = some img ∧
      img.band = (([⟨["red", "green"], [10, 20], [1, 2], [3, 4]⟩,
        (⟨["elevation"], [30], [1, 2], [3, 4]⟩ : Dataset ℕ)]).map Dataset.band).flatten ∧
      img.band.length = ((([⟨["red", "green"], [10, 20], [1, 2], [3, 4]⟩,
        (⟨["elevation"], [30], [1, 2], [3, 4]⟩ : Dataset ℕ)]).map
          (fun e => e.band.length)).sum) ∧
      img.xs = [1, 2] ∧ img.ys = [3, 4]) ∧
    create_predictor_image ([] : List (Dataset ℕ)) = none) :=
  ⟨by decide,
    create_predictor_image_spec (⟨["red", "green"], [10, 20], [1, 2], [3, 4]⟩ : Dataset ℕ)
      [⟨["elevation"], [30], [1, 2], [3, 4]⟩] (by decide)⟩

/-- Helper: the surface-water write loop over bands enumerated from start
leaves every band index at or below start untouched. -/
theorem write_loop_preserve {L : Type} (sel : String → L) :
    ∀ (tl : List String) (start : ℕ) (f : ℕ → Option L) (k : ℕ), k ≤ start →
      ((tl.enumFrom start).foldl (fun f p => write_band f (p.1 + 1) (sel p.2)) f) k
        = f k := by
  intro tl
  induction tl with
  | nil => intro start f k _; rfl
  | cons a tl ih =>
    intro start f k hk
    rw [show (a :: tl).enumFrom start = (start, a) :: tl.enumFrom (start + 1) from rfl,
      List.foldl_cons, ih (start + 1) _ k (Nat.le_succ_of_le hk)]
    unfold write_band
    rw [if_neg (by omega)]

/-- Helper: after the surface-water write loop over bands enumerated from
start, band start + i + 1 holds the layer of asset i. -/
theorem write_loop_get {L : Type} (sel : String → L) :
    ∀ (assets : List String) (start : ℕ) (f : ℕ → Option L) (i : ℕ),
      i < assets.length →
      ((assets.enumFrom start).foldl (fun f p => write_band f (p.1 + 1) (sel p.2)) f)
          (start + i + 1) = some (sel (assets.getD i "")) := by
  intro assets
  induction assets with
  | nil => intro start f i hi; simp at hi
  | cons a tl ih =>
    intro start f i hi
    rw [show (a :: tl).enumFrom start = (start, a) :: tl.enumFrom (start + 1) from rfl,
      List.foldl_cons]
    cases i with
    | zero =>
      rw [write_loop_preserve sel tl (start + 1) _ (start + 1) (le_refl _)]
      simp [write_band]
    | succ j =>
      have hidx : start + (j + 1) + 1 = (start + 1) + j + 1 := by omega
      rw [hidx, ih (start + 1) _ j (by simpa using hi)]
      simp

/-- C6: the DEM notebook's GeoTIFF holds elevation as band 1 and slope as
band 2 and nothing else, and the surface-water notebook's GeoTIFF holds,
for each listed cog asset i, that asset's data layer as band i + 1. -/
theorem tiff_band_ordering {L : Type} (elevation slope : L)
    (cog_assets : List String) (sel : String → L) (dataBands : List L)
    (i : ℕ) (hi : i < cog_assets.length) :
    dem_tiff elevation slope 1 = some elevation ∧
    dem_tiff elevation slope 2 = some slope ∧
    (∀ b, b ≠ 1 → b ≠ 2 → dem_tiff elevation slope b = none) ∧
    jrc_tiff cog_assets sel dataBands (i + 1) =
      some (sel (cog_assets.getD i "")) := by
  refine ⟨by simp [dem_tiff, write_band], by simp [dem_tiff, write_band], ?_, ?_⟩
  · intro b h1 h2
    simp [dem_tiff, write_band, empty_tiff, h1, h2]
  · unfold jrc_tiff
    have h := write_loop_get sel cog_assets 0 (write_all empty_tiff dataBands) i hi
    rw [show cog_assets.enum = cog_assets.enumFrom 0 from rfl]
    simpa using h

/-- Witness for C6 with concrete layers and the two jrc-gsw asset keys. -/
theorem tiff_band_ordering_witness :
    (1 : ℕ) < (["occurrence", "extent"] : List String).length ∧
    (dem_tiff (100 : ℕ) 5 1 = some 100 ∧
     dem_tiff (100 : ℕ) 5 2 = some 5 ∧
     (∀ b, b ≠ 1 → b ≠ 2 → dem_tiff (100 : ℕ) 5 b = none) ∧
     jrc_tiff ["occurrence", "extent"] String.length [7, 8] (1 + 1) =
       some ((["occurrence", "extent"] : List String).getD 1 "").length) :=
  ⟨by decide,
    tiff_band_ordering 100 5 ["occurrence", "extent"] String.length [7, 8] 1 (by decide)⟩

/-- Counterexample for C7 as stated: with the catalog returning raw
unsigned URLs, not every raster asset URL the notebooks open has been
signed; the surface-water notebook's accesses and the terraclimate Zarr
read are unsigned. -/
theorem not_all_opened_urls_signed :
    ((opened_raster_urls raw_catalog).all fun u => u.signed) = false := by decide

/-- C7 (amended): every raster asset URL the notebooks open is signed
before access, except the surface-water notebook's jrc-gsw asset accesses
(its colormap reads and its stack of the raw search item) and the
terraclimate Zarr URL, which is read unsigned from collection metadata
rather than from a bounding-box search. -/
theorem opened_urls_signed_except_jrc_and_terraclimate (c : CatalogAssets)
    (u : AssetUrl) (hu : u ∈ opened_raster_urls c) :
    u.signed = true ∨
      u ∈ (c.jrcCogs.map fun k => c.jrcAssets k) ∨ u = c.terraclimZarr := by
  simp only [opened_raster_urls, List.append_assoc, List.mem_append,
    List.mem_singleton] at hu
  rcases hu with h | h | h | h | h | h | h
  · exact Or.inl (by rw [h]; rfl)
  · exact Or.inl (by rw [h]; rfl)
  · exact Or.inr (Or.inr h)
  · exact Or.inr (Or.inl h)
  · exact Or.inr (Or.inl h)
  · exact Or.inl (by rw [h]; rfl)
  · exact Or.inl (by rw [h]; rfl)

/-- Witness for C7 (amended) at the raw catalog and the terraclimate Zarr
URL. -/
theorem opened_urls_signed_except_jrc_and_terraclimate_witness :
    (raw_catalog.terraclimZarr ∈ opened_raster_urls raw_catalog) ∧
    (raw_catalog.terraclimZarr.signed = true ∨
      raw_catalog.terraclimZarr ∈
        (raw_catalog.jrcCogs.map fun k => raw_catalog.jrcAssets k) ∨
      raw_catalog.terraclimZarr = raw_catalog.terraclimZarr) :=
  ⟨by decide,
    opened_urls_signed_except_jrc_and_terraclimate raw_catalog
      raw_catalog.terraclimZarr (by decide)⟩

end EYFrog
